import Mathlib

/-!
Verification of the photobook PDF generator (pdf_generator/generate_pdf.py and
pdf_generator/generate_cover.py) against its natural-language specification.

The geometry is embedded over the rationals: every arithmetic operation the
Python code performs on floats is mirrored exactly on rationals, so all the
algebraic identities below hold without floating-point tolerance concerns.
Millimetre placement values are modelled in millimetres (the final uniform
multiplication by the points-per-millimetre constant that ReportLab applies is
a global rescaling and is omitted).
-/

namespace Photobook

/-! ## Constants (generate_pdf.py lines 23-44) -/

def UI_PAGE_WIDTH : ℚ := 730

def UI_PAGE_HEIGHT : ℚ := 598

def UI_GUTTER : ℚ := 7

def PRINT_PAGE_WIDTH : ℚ := 356

def PRINT_PAGE_HEIGHT : ℚ := 296

def PRINT_MARGIN : ℚ := 2

def PRINT_AREA_WIDTH : ℚ := PRINT_PAGE_WIDTH - 2 * PRINT_MARGIN

def PRINT_AREA_HEIGHT : ℚ := PRINT_PAGE_HEIGHT - 2 * PRINT_MARGIN

def SCALE_FACTOR : ℚ := PRINT_AREA_WIDTH / UI_PAGE_WIDTH

def PRINT_GUTTER : ℚ := UI_GUTTER * SCALE_FACTOR

def MIN_DPI_WARNING : ℚ := 200

/-! ## Cropping logic (generate_pdf.py lines 104-166) -/

/-- Embedding of clamp(value, min_val, max_val) = min(max_val, max(min_val, value)). -/
def clamp (value minVal maxVal : ℚ) : ℚ := min maxVal (max minVal value)

/-- The crop rectangle returned by calculate_crop, in source-image pixel space. -/
structure CropRect where
  x : ℚ
  y : ℚ
  width : ℚ
  height : ℚ
deriving Repr, DecidableEq

/-- The cover box computed in the first half of calculate_crop: the pair
(base_crop_w, base_crop_h) chosen by comparing the image aspect to the cell
aspect (generate_pdf.py lines 136-148). The Python condition is
img_ar greater than cell_ar, written here as cell_ar less than img_ar. -/
def cover_box (img_w img_h cell_w cell_h : ℚ) : ℚ × ℚ :=
  if cell_w / cell_h < img_w / img_h then (img_h * (cell_w / cell_h), img_h)
  else (img_w, img_w / (cell_w / cell_h))

/-- Embedding of calculate_crop (generate_pdf.py lines 109-166): shrink the
cover box by the zoom factor, centre it on the focal point, and clamp the
origin so the box stays inside the image. -/
def calculate_crop (img_w img_h cell_w cell_h focal_x focal_y zoom : ℚ) : CropRect :=
  let base := cover_box img_w img_h cell_w cell_h
  let final_crop_w := base.1 / zoom
  let final_crop_h := base.2 / zoom
  let focal_px_x := focal_x * img_w
  let focal_px_y := focal_y * img_h
  let crop_x := clamp (focal_px_x - final_crop_w / 2) 0 (img_w - final_crop_w)
  let crop_y := clamp (focal_px_y - final_crop_h / 2) 0 (img_h - final_crop_h)
  ⟨crop_x, crop_y, final_crop_w, final_crop_h⟩

/-- Embedding of calculate_effective_dpi (generate_pdf.py lines 239-244),
with 25.4 written as the rational 127/5. -/
def calculate_effective_dpi (crop_width print_width_mm : ℚ) : ℚ :=
  crop_width / (print_width_mm / (127 / 5))

/-! ## Helper lemmas about the cover box -/

lemma cover_box_pos (img_w img_h cell_w cell_h : ℚ)
    (hiw : 0 < img_w) (hih : 0 < img_h) (hcw : 0 < cell_w) (hch : 0 < cell_h) :
    0 < (cover_box img_w img_h cell_w cell_h).1 ∧
      0 < (cover_box img_w img_h cell_w cell_h).2 := by
  unfold cover_box
  split
  · exact ⟨mul_pos hih (div_pos hcw hch), hih⟩
  · exact ⟨hiw, div_pos hiw (div_pos hcw hch)⟩

lemma cover_box_le (img_w img_h cell_w cell_h : ℚ)
    (hiw : 0 < img_w) (hih : 0 < img_h) (hcw : 0 < cell_w) (hch : 0 < cell_h) :
    (cover_box img_w img_h cell_w cell_h).1 ≤ img_w ∧
      (cover_box img_w img_h cell_w cell_h).2 ≤ img_h := by
  unfold cover_box
  split
  · rename_i hlt
    refine ⟨?_, le_refl _⟩
    have h1 : img_h * (cell_w / cell_h) < img_h * (img_w / img_h) :=
      mul_lt_mul_of_pos_left hlt hih
    have h2 : img_h * (img_w / img_h) = img_w := by
      field_simp
    simp only
    rw [h2] at h1
    exact h1.le
  · rename_i hge
    refine ⟨le_refl _, ?_⟩
    have hle : img_w / img_h ≤ cell_w / cell_h := le_of_not_lt hge
    have hcar : 0 < cell_w / cell_h := div_pos hcw hch
    simp only
    rw [div_le_iff₀ hcar]
    calc img_w = img_h * (img_w / img_h) := by field_simp
      _ ≤ img_h * (cell_w / cell_h) := mul_le_mul_of_nonneg_left hle hih.le

lemma cover_box_aspect (img_w img_h cell_w cell_h : ℚ)
    (hiw : 0 < img_w) (hih : 0 < img_h) (hcw : 0 < cell_w) (hch : 0 < cell_h) :
    (cover_box img_w img_h cell_w cell_h).1 / (cover_box img_w img_h cell_w cell_h).2 =
      cell_w / cell_h := by
  unfold cover_box
  split
  · simp only
    rw [mul_comm, mul_div_assoc, div_self hih.ne', mul_one]
  · simp only
    rw [div_div_eq_mul_div, mul_comm, mul_div_assoc, div_self hiw.ne', mul_one]

lemma clamp_nonneg_le (v hi : ℚ) (h : 0 ≤ hi) :
    0 ≤ clamp v 0 hi ∧ clamp v 0 hi ≤ hi := by
  unfold clamp
  exact ⟨le_min h (le_max_left 0 v), min_le_left _ _⟩

/-- Claim C1: for positive image and cell dimensions, focal coordinates in
[0,1] and zoom at least 1, the rectangle returned by calculate_crop lies
fully inside the source image bounds: 0 le x, 0 le y, x + w le img_w and
y + h le img_h. -/
theorem C1_crop_rect_within_image_bounds
    (img_w img_h cell_w cell_h focal_x focal_y zoom : ℚ)
    (hiw : 0 < img_w) (hih : 0 < img_h) (hcw : 0 < cell_w) (hch : 0 < cell_h)
    (hfx0 : 0 ≤ focal_x) (hfx1 : focal_x ≤ 1) (hfy0 : 0 ≤ focal_y) (hfy1 : focal_y ≤ 1)
    (hz : 1 ≤ zoom) :
    0 ≤ (calculate_crop img_w img_h cell_w cell_h focal_x focal_y zoom).x ∧
    0 ≤ (calculate_crop img_w img_h cell_w cell_h focal_x focal_y zoom).y ∧
    (calculate_crop img_w img_h cell_w cell_h focal_x focal_y zoom).x +
      (calculate_crop img_w img_h cell_w cell_h focal_x focal_y zoom).width ≤ img_w ∧
    (calculate_crop img_w img_h cell_w cell_h focal_x focal_y zoom).y +
      (calculate_crop img_w img_h cell_w cell_h focal_x focal_y zoom).height ≤ img_h := by
  obtain ⟨hbw, hbh⟩ := cover_box_pos img_w img_h cell_w cell_h hiw hih hcw hch
  obtain ⟨hbw', hbh'⟩ := cover_box_le img_w img_h cell_w cell_h hiw hih hcw hch
  have hfw : (cover_box img_w img_h cell_w cell_h).1 / zoom ≤ img_w :=
    le_trans (div_le_self hbw.le hz) hbw'
  have hfh : (cover_box img_w img_h cell_w cell_h).2 / zoom ≤ img_h :=
    le_trans (div_le_self hbh.le hz) hbh'
  have hx := clamp_nonneg_le
    (focal_x * img_w - (cover_box img_w img_h cell_w cell_h).1 / zoom / 2)
    (img_w - (cover_box img_w img_h cell_w cell_h).1 / zoom) (by linarith)
  have hy := clamp_nonneg_le
    (focal_y * img_h - (cover_box img_w img_h cell_w cell_h).2 / zoom / 2)
    (img_h - (cover_box img_w img_h cell_w cell_h).2 / zoom) (by linarith)
  simp only [calculate_crop]
  exact ⟨hx.1, hy.1, by linarith [hx.2], by linarith [hy.2]⟩

/-- Witness for C1 at img 4x3, cell 1x1, centred focal point, zoom 1. -/
theorem C1_crop_rect_within_image_bounds_witness :
    (0 < (4 : ℚ) ∧ 0 < (3 : ℚ) ∧ 0 < (1 : ℚ) ∧ 0 ≤ (1/2 : ℚ) ∧ (1/2 : ℚ) ≤ 1 ∧
      1 ≤ (1 : ℚ)) ∧
    (0 ≤ (calculate_crop 4 3 1 1 (1/2) (1/2) 1).x ∧
      0 ≤ (calculate_crop 4 3 1 1 (1/2) (1/2) 1).y ∧
      (calculate_crop 4 3 1 1 (1/2) (1/2) 1).x +
        (calculate_crop 4 3 1 1 (1/2) (1/2) 1).width ≤ 4 ∧
      (calculate_crop 4 3 1 1 (1/2) (1/2) 1).y +
        (calculate_crop 4 3 1 1 (1/2) (1/2) 1).height ≤ 3) :=
  ⟨by norm_num,
    C1_crop_rect_within_image_bounds 4 3 1 1 (1/2) (1/2) 1
      (by norm_num) (by norm_num) (by norm_num) (by norm_num)
      (by norm_num) (by norm_num) (by norm_num) (by norm_num) (by norm_num)⟩

/-- Claim C5: for fixed positive dimensions and a fixed focal point, a larger
zoom gives a strictly smaller crop width and height, and at every zoom the
crop aspect equals the cell aspect cell_w / cell_h. -/
theorem C5_zoom_strictly_shrinks_crop_at_constant_aspect
    (img_w img_h cell_w cell_h focal_x focal_y z1 z2 : ℚ)
    (hiw : 0 < img_w) (hih : 0 < img_h) (hcw : 0 < cell_w) (hch : 0 < cell_h)
    (hz1 : 1 ≤ z1) (h12 : z1 < z2) :
    (calculate_crop img_w img_h cell_w cell_h focal_x focal_y z2).width <
      (calculate_crop img_w img_h cell_w cell_h focal_x focal_y z1).width ∧
    (calculate_crop img_w img_h cell_w cell_h focal_x focal_y z2).height <
      (calculate_crop img_w img_h cell_w cell_h focal_x focal_y z1).height ∧
    (calculate_crop img_w img_h cell_w cell_h focal_x focal_y z1).width /
      (calculate_crop img_w img_h cell_w cell_h focal_x focal_y z1).height =
        cell_w / cell_h ∧
    (calculate_crop img_w img_h cell_w cell_h focal_x focal_y z2).width /
      (calculate_crop img_w img_h cell_w cell_h focal_x focal_y z2).height =
        cell_w / cell_h := by
  have hz1p : (0 : ℚ) < z1 := lt_of_lt_of_le one_pos hz1
  have hz2p : (0 : ℚ) < z2 := hz1p.trans h12
  obtain ⟨hbw, hbh⟩ := cover_box_pos img_w img_h cell_w cell_h hiw hih hcw hch
  have key : ∀ z : ℚ, z ≠ 0 →
      (cover_box img_w img_h cell_w cell_h).1 / z /
        ((cover_box img_w img_h cell_w cell_h).2 / z) =
      cell_w / cell_h := by
    intro z hz
    have h1 : (cover_box img_w img_h cell_w cell_h).1 / z /
        ((cover_box img_w img_h cell_w cell_h).2 / z) =
        (cover_box img_w img_h cell_w cell_h).1 /
          (cover_box img_w img_h cell_w cell_h).2 := by
      field_simp
    rw [h1]
    exact cover_box_aspect img_w img_h cell_w cell_h hiw hih hcw hch
  simp only [calculate_crop]
  exact ⟨(div_lt_div_iff_of_pos_left hbw hz2p hz1p).mpr h12,
    (div_lt_div_iff_of_pos_left hbh hz2p hz1p).mpr h12,
    key z1 hz1p.ne', key z2 hz2p.ne'⟩

/-- Witness for C5 at img 1600x900, cell 400x300, focal (1/4, 3/4),
zoom 1 against zoom 2. -/
theorem C5_zoom_strictly_shrinks_crop_at_constant_aspect_witness :
    (0 < (1600 : ℚ) ∧ 0 < (900 : ℚ) ∧ 0 < (400 : ℚ) ∧ 0 < (300 : ℚ) ∧
      1 ≤ (1 : ℚ) ∧ (1 : ℚ) < 2) ∧
    ((calculate_crop 1600 900 400 300 (1/4) (3/4) 2).width <
      (calculate_crop 1600 900 400 300 (1/4) (3/4) 1).width ∧
    (calculate_crop 1600 900 400 300 (1/4) (3/4) 2).height <
      (calculate_crop 1600 900 400 300 (1/4) (3/4) 1).height ∧
    (calculate_crop 1600 900 400 300 (1/4) (3/4) 1).width /
      (calculate_crop 1600 900 400 300 (1/4) (3/4) 1).height = 400 / 300 ∧
    (calculate_crop 1600 900 400 300 (1/4) (3/4) 2).width /
      (calculate_crop 1600 900 400 300 (1/4) (3/4) 2).height = 400 / 300) :=
  ⟨by norm_num,
    C5_zoom_strictly_shrinks_crop_at_constant_aspect 1600 900 400 300 (1/4) (3/4) 1 2
      (by norm_num) (by norm_num) (by norm_num) (by norm_num) (by norm_num) (by norm_num)⟩

/-! ## Spine resolution (generate_cover.py lines 26-142) -/

def BLEED : ℚ := 19

def TOTAL_HEIGHT : ℚ := 335

def BASE_TOTAL_WIDTH : ℚ := 758

def BASE_SPINE_WIDTH : ℚ := 6

/-- The SPINE_TABLE constant from generate_cover.py lines 45-60:
entries (min_pages, max_pages, spine_mm). -/
def SPINE_TABLE : List (ℤ × ℤ × ℕ) :=
  [(24, 34, 6), (36, 46, 7), (48, 60, 8), (62, 70, 9), (72, 82, 10), (84, 98, 11),
    (100, 114, 12), (116, 126, 13), (128, 138, 14), (140, 154, 15), (156, 170, 16),
    (172, 186, 17), (188, 196, 18), (200, 200, 19)]

/-- Embedding of calculate_paper_pages (generate_cover.py lines 108-114);
Python floor division // is Int.fdiv. -/
def calculate_paper_pages (album_pages : ℤ) : ℤ := Int.fdiv (album_pages - 2) 2

/-- The observable outcome of get_spine_width: a spine width returned from a
table hit, a spine width returned together with a printed out-of-range
warning, or a raised ValueError. -/
inductive SpineResult where
  | ok (spine_mm : ℕ)
  | warned (spine_mm : ℕ)
  | error
deriving Repr, DecidableEq

/-- The scan of SPINE_TABLE performed by the for loop in get_spine_width:
the first entry whose inclusive range contains the page count wins. -/
def spineLookup : List (ℤ × ℤ × ℕ) → ℤ → Option ℕ
  | [], _ => none
  | (lo, hi, s) :: rest, p => if lo ≤ p ∧ p ≤ hi then some s else spineLookup rest p

/-- Embedding of get_spine_width (generate_cover.py lines 117-137): table hit,
else clamp below 24 to 6mm with a warning, clamp above 200 to 19mm with a
warning, else raise ValueError. -/
def get_spine_width (paper_pages : ℤ) : SpineResult :=
  match spineLookup SPINE_TABLE paper_pages with
  | some s => .ok s
  | none =>
    if paper_pages < 24 then .warned 6
    else if 200 < paper_pages then .warned 19
    else .error

/-- Embedding of calculate_total_width (generate_cover.py lines 140-142). -/
def calculate_total_width (spine_width : ℕ) : ℚ :=
  BASE_TOTAL_WIDTH + ((spine_width : ℚ) - BASE_SPINE_WIDTH)

/-- Counterexample to claim C4: the table does not map the whole band
188..200 to 19mm, and it does not cover every count in 24..200 without an
error: get_spine_width 188 returns 18, and get_spine_width 197 falls in a
gap of the table and raises ValueError. -/
theorem C4_counterexample_spine_table_gap :
    get_spine_width 188 = SpineResult.ok 18 ∧
      get_spine_width 197 = SpineResult.error := by decide

/-- Claim C4 amended: in the top region 188..200 the table returns 18mm for
188..196, 19mm only at exactly 200, and raises ValueError on the uncovered
gap 197..199; moreover every mid-table gap value (35, 47, 61, 71, 83, 99,
115, 127, 139, 155, 171 and 187) also falls outside all ranges and raises
ValueError. -/
theorem C4_amended_spine_coverage (p : ℤ) (h1 : 188 ≤ p) (h2 : p ≤ 200) :
    (get_spine_width p =
      if p ≤ 196 then SpineResult.ok 18
      else if p = 200 then SpineResult.ok 19
      else SpineResult.error) ∧
    (∀ q : ℤ,
      q ∈ ([35, 47, 61, 71, 83, 99, 115, 127, 139, 155, 171, 187] : List ℤ) →
      get_spine_width q = SpineResult.error) := by
  constructor
  · interval_cases p <;> decide
  · decide

/-- Witness for the amended C4 at 190 paper pages and the gap value 35. -/
theorem C4_amended_spine_coverage_witness :
    ((188 : ℤ) ≤ 190 ∧ (190 : ℤ) ≤ 200) ∧
    get_spine_width 190 =
      (if (190 : ℤ) ≤ 196 then SpineResult.ok 18
       else if (190 : ℤ) = 200 then SpineResult.ok 19
       else SpineResult.error) ∧
    get_spine_width 35 = SpineResult.error :=
  ⟨by decide,
    (C4_amended_spine_coverage 190 (by decide) (by decide)).1,
    (C4_amended_spine_coverage 190 (by decide) (by decide)).2 35 (by decide)⟩

/-- Claim C6: an album of 40 pages yields 19 paper pages, and 19 is below the
table minimum of 24, so get_spine_width takes the clamp-low path, returning
6mm with a non-fatal warning instead of an error. -/
theorem C6_forty_page_album_takes_clamp_low_path :
    calculate_paper_pages 40 = 19 ∧ get_spine_width 19 = SpineResult.warned 6 := by
  decide

/-! ## Album data model (generate_pdf.py lines 51-96) -/

structure FocalPoint where
  x : ℚ
  y : ℚ
deriving Repr, DecidableEq

/-- A cell record; absent optional keys are modelled as none. The crop_x,
crop_y, crop_width and crop_height keys of the TypedDict are never read by
either generator and are omitted. -/
structure Cell where
  width : Option ℚ := none
  height : Option ℚ := none
  path : Option String := none
  focalPoint : Option FocalPoint := none
  zoom : Option ℚ := none
deriving Repr, DecidableEq

structure Row where
  height : ℚ
  cells : List Cell
deriving Repr, DecidableEq

structure Column where
  width : ℚ
  cells : List Cell
deriving Repr, DecidableEq

/-- A page; a rows or columns key that is absent behaves exactly like an
empty list in both generators, so both are modelled as lists. -/
structure Page where
  id : String := ""
  layout : String := ""
  rows : List Row := []
  columns : List Column := []
deriving Repr, DecidableEq

structure Album where
  photobook_version : String := ""
  pages : List Page
deriving Repr, DecidableEq

/-- COLUMN_LAYOUTS (generate_pdf.py line 91). -/
def COLUMN_LAYOUTS : List String := ["1-1", "1-2", "2-1"]

/-- Embedding of is_column_layout (generate_pdf.py lines 94-96). Note that
generate_pdf never calls it: the branch between walks tests the columns
collection directly. -/
def is_column_layout (layout : String) : Bool := COLUMN_LAYOUTS.contains layout

/-! ## Page layout walk (generate_pdf.py lines 361-453) -/

/-- The arguments the layout walk passes to render_cell for one cell: the
cell fields render_cell reads, the UI-pixel reference size used for the crop
aspect, and the physical placement rect in millimetres (bottom-left origin,
already y-flipped as in the source). -/
structure Placement where
  path : Option String
  focalPoint : Option FocalPoint
  zoom : Option ℚ
  cellWidthUI : ℚ
  cellHeightUI : ℚ
  widthMM : ℚ
  heightMM : ℚ
  xMM : ℚ
  yMM : ℚ
deriving Repr, DecidableEq

/-- Gutter added after an element only when further elements follow (the
index comparisons in generate_pdf.py lines 400, 405, 447 and 452). -/
def trailGutter {α : Type} (rest : List α) : ℚ :=
  if rest.isEmpty then 0 else PRINT_GUTTER

/-- The inner loop over one row (generate_pdf.py lines 422-448): x advances
per cell and a missing declared width defaults to UI_PAGE_WIDTH. -/
def rowCellsWalk (rowHeightUI : ℚ) : List Cell → ℚ → ℚ → List Placement
  | [], _, _ => []
  | c :: rest, currentX, currentYFromTop =>
    let cellWidthUI := c.width.getD UI_PAGE_WIDTH
    let cellWidthMM := cellWidthUI * SCALE_FACTOR
    let cellHeightMM := rowHeightUI * SCALE_FACTOR
    { path := c.path, focalPoint := c.focalPoint, zoom := c.zoom,
      cellWidthUI := cellWidthUI, cellHeightUI := rowHeightUI,
      widthMM := cellWidthMM, heightMM := cellHeightMM,
      xMM := PRINT_MARGIN + currentX,
      yMM := PRINT_PAGE_HEIGHT - PRINT_MARGIN - currentYFromTop - cellHeightMM } ::
      rowCellsWalk rowHeightUI rest (currentX + cellWidthMM + trailGutter rest)
        currentYFromTop

/-- The outer loop over rows (generate_pdf.py lines 414-453): y advances per
row by the row height plus a gutter except after the last row. -/
def rowsWalk : List Row → ℚ → List Placement
  | [], _ => []
  | r :: rest, currentYFromTop =>
    rowCellsWalk r.height r.cells 0 currentYFromTop ++
      rowsWalk rest (currentYFromTop + r.height * SCALE_FACTOR + trailGutter rest)

/-- The inner loop over one column (generate_pdf.py lines 375-401): y
advances per cell and a missing declared height defaults to UI_PAGE_HEIGHT. -/
def columnCellsWalk (colWidthUI : ℚ) : List Cell → ℚ → ℚ → List Placement
  | [], _, _ => []
  | c :: rest, currentX, currentYFromTop =>
    let cellHeightUI := c.height.getD UI_PAGE_HEIGHT
    let cellHeightMM := cellHeightUI * SCALE_FACTOR
    let cellWidthMM := colWidthUI * SCALE_FACTOR
    { path := c.path, focalPoint := c.focalPoint, zoom := c.zoom,
      cellWidthUI := colWidthUI, cellHeightUI := cellHeightUI,
      widthMM := cellWidthMM, heightMM := cellHeightMM,
      xMM := PRINT_MARGIN + currentX,
      yMM := PRINT_PAGE_HEIGHT - PRINT_MARGIN - currentYFromTop - cellHeightMM } ::
      columnCellsWalk colWidthUI rest currentX
        (currentYFromTop + cellHeightMM + trailGutter rest)

/-- The outer loop over columns (generate_pdf.py lines 368-406). -/
def columnsWalk : List Column → ℚ → List Placement
  | [], _ => []
  | col :: rest, currentX =>
    columnCellsWalk col.width col.cells currentX 0 ++
      columnsWalk rest (currentX + col.width * SCALE_FACTOR + trailGutter rest)

/-- The per-page branch of generate_pdf (line 364): the column walk runs
exactly when the columns collection is present and non-empty, otherwise the
row walk runs on the rows collection (possibly empty). -/
def pagePlacements (page : Page) : List Placement :=
  if page.columns.isEmpty then rowsWalk page.rows 0
  else columnsWalk page.columns 0

/-! ## Cell rendering (generate_pdf.py lines 252-330) -/

/-- The image files on disk: a path resolves to the pixel dimensions of the
image stored there, or to none when no such file exists. -/
abbrev ImageStore := String → Option (ℚ × ℚ)

/-- One emitted draw command: which image, the crop applied to it, and the
placement rect on the canvas in millimetres. -/
structure DrawCmd where
  path : String
  crop : CropRect
  xMM : ℚ
  yMM : ℚ
  widthMM : ℚ
  heightMM : ℚ
deriving Repr, DecidableEq

inductive Warning where
  | imageNotFound (path : String)
  | lowDPI (path : String)
deriving Repr, DecidableEq

/-- Embedding of render_cell (generate_pdf.py lines 252-330): an absent or
empty path is a placeholder and yields nothing; a path that does not resolve
to a file yields a warning and no draw command; otherwise the crop is
computed from the UI-pixel reference size, a low-DPI warning may be logged,
and one draw command is emitted. -/
def render_cell (store : ImageStore) (pl : Placement) : Option DrawCmd × List Warning :=
  match pl.path with
  | none => (none, [])
  | some p =>
    if p = "" then (none, [])
    else
      match store p with
      | none => (none, [Warning.imageNotFound p])
      | some (img_w, img_h) =>
        let focal := pl.focalPoint.getD ⟨1/2, 1/2⟩
        let zoom := pl.zoom.getD 1
        let crop := calculate_crop img_w img_h pl.cellWidthUI pl.cellHeightUI
          focal.x focal.y zoom
        let warns := if calculate_effective_dpi crop.width pl.widthMM < MIN_DPI_WARNING
          then [Warning.lowDPI p] else []
        (some { path := p, crop := crop, xMM := pl.xMM, yMM := pl.yMM,
                widthMM := pl.widthMM, heightMM := pl.heightMM }, warns)

/-- The draw commands one page contributes, in emission order. -/
def pageDrawCommands (store : ImageStore) (page : Page) : List DrawCmd :=
  (pagePlacements page).filterMap (fun pl => (render_cell store pl).1)

/-- The warnings one page logs, in emission order. -/
def pageWarnings (store : ImageStore) (page : Page) : List Warning :=
  ((pagePlacements page).map (fun pl => (render_cell store pl).2)).flatten

/-- The draw commands of the row-based walk applied to a page. -/
def rowWalkDrawCommands (store : ImageStore) (page : Page) : List DrawCmd :=
  (rowsWalk page.rows 0).filterMap (fun pl => (render_cell store pl).1)

/-- The draw commands of the column-based walk applied to a page. -/
def columnWalkDrawCommands (store : ImageStore) (page : Page) : List DrawCmd :=
  (columnsWalk page.columns 0).filterMap (fun pl => (render_cell store pl).1)

/-! ## Document driver (generate_pdf.py lines 333-470) -/

/-- interior_pages = album pages [1:-1] when there are more than two pages,
else the empty list (generate_pdf.py line 340). -/
def interiorPages (album : Album) : List Page :=
  if 2 < album.pages.length then (album.pages.drop 1).dropLast else []

/-- The observable outcome of generate_pdf: either the early normal return
that prints the no-interior-pages error before any canvas is created, or a
generated document listing each interior page's draw commands and
warnings. -/
inductive PdfOutcome where
  | noInterior
  | generated (pages : List (List DrawCmd × List Warning))
deriving Repr, DecidableEq

/-- Embedding of generate_pdf (generate_pdf.py lines 333-470). -/
def generate_pdf (store : ImageStore) (album : Album) : PdfOutcome :=
  if (interiorPages album).isEmpty then .noInterior
  else .generated ((interiorPages album).map
    (fun pg => (pageDrawCommands store pg, pageWarnings store pg)))

/-! ## Cover validation and setup (generate_cover.py lines 246-359) -/

/-- Embedding of count_cells_in_page (generate_cover.py lines 246-258):
cells in rows plus cells in columns. -/
def count_cells_in_page (page : Page) : ℕ :=
  (page.rows.map (fun r => r.cells.length)).sum +
    (page.columns.map (fun col => col.cells.length)).sum

/-- The truthiness test cell.get("path") used by get_first_cell_with_image:
a present, non-empty path. -/
def cellHasImage (c : Cell) : Bool :=
  match c.path with
  | some p => decide (p ≠ "")
  | none => false

/-- Embedding of get_first_cell_with_image (generate_cover.py lines
275-295): first image-bearing cell scanning rows, then columns. -/
def get_first_cell_with_image (page : Page) : Option Cell :=
  match ((page.rows.map Row.cells).flatten).find? cellHasImage with
  | some c => some c
  | none => ((page.columns.map Column.cells).flatten).find? cellHasImage

/-- The observable outcome of the part of generate_cover that runs before
the PDF canvas is created: fatal means the process ends with a non-zero exit
(sys.exit(1) from validation, or an uncaught ValueError / IndexError) with
no canvas ever created, hence no cover PDF written. -/
inductive CoverSetup where
  | fatal
  | ready (frontCell backCell : Cell) (spine_mm : ℕ)
deriving Repr, DecidableEq

/-- The steps of generate_cover after spine resolution and before canvas
creation (generate_cover.py lines 333-349): pages[0] and pages[-1] are the
cover sources, both must validate as single-cell pages, and both must
contain an image-bearing cell. -/
def coverSetupAfterSpine (album : Album) (s : ℕ) : CoverSetup :=
  match album.pages.head?, album.pages.getLast? with
  | some front, some back =>
    if count_cells_in_page front ≠ 1 then .fatal
    else if count_cells_in_page back ≠ 1 then .fatal
    else
      match get_first_cell_with_image front, get_first_cell_with_image back with
      | some fc, some bc => .ready fc bc s
      | _, _ => .fatal
  | _, _ => .fatal

/-- Embedding of generate_cover (generate_cover.py lines 303-359) up to the
point where the canvas is created: spine resolution happens first (lines
315-317, a ValueError on a table gap aborts the run), then cover page
validation and cell extraction. An album with no pages raises IndexError at
pages[0], also fatal. -/
def cover_setup (album : Album) : CoverSetup :=
  match get_spine_width (calculate_paper_pages (album.pages.length : ℤ)) with
  | .error => .fatal
  | .ok s => coverSetupAfterSpine album s
  | .warned s => coverSetupAfterSpine album s

/-! ## Claims C2, C3 and C10 about the page layout walk and the driver -/

/-- A full-UI-width cell carrying an image, for claim C2. -/
def C2cell : Cell := { width := some 730, path := some "photo.jpg" }

/-- An interior page holding exactly one row of one full-width cell whose
row height is the full UI page height, for claim C2. -/
def C2page : Page :=
  { id := "interior-1", layout := "1", rows := [{ height := 598, cells := [C2cell] }] }

/-- Counterexample to claim C2: for the one-row one-cell page with declared
UI size 730 x 598, the emitted placement rect is x = 2mm, y = 2062/365mm
(about 5.65mm), width = 352mm, height = 105248/365mm (about 288.35mm) - not
the claimed (2, 2, 352, 292): the single width-derived scale factor maps the
full UI height 598 to less than the printable height because the UI aspect
730:598 differs from the printable-area aspect 352:292. -/
theorem C2_counterexample_full_cell_short_of_printable_height :
    (pagePlacements C2page).map (fun pl => (pl.xMM, pl.yMM, pl.widthMM, pl.heightMM)) =
      [(2, 2062/365, 352, 105248/365)] ∧
    ¬ (pagePlacements C2page).map (fun pl => (pl.xMM, pl.yMM, pl.widthMM, pl.heightMM)) =
      [(2, 2, 352, 292)] := by
  constructor <;>
    norm_num [pagePlacements, C2page, C2cell, rowsWalk, rowCellsWalk, trailGutter,
      UI_PAGE_WIDTH, SCALE_FACTOR, PRINT_AREA_WIDTH, PRINT_PAGE_WIDTH,
      PRINT_PAGE_HEIGHT, PRINT_MARGIN]

/-- Claim C2 amended: for an interior page of exactly one row of one cell
declaring the full UI width 730 and the full UI height 598, the emitted
rect spans the printable width exactly (x = 2mm, width = 352mm) but not the
printable height: height = 598 * 352/730 = 105248/365mm and hence
y = 296 - 2 - 105248/365 = 2062/365mm. -/
theorem C2_amended_single_full_cell_rect (c : Cell) (hw : c.width = some 730)
    (idStr layoutStr : String) :
    pagePlacements
      { id := idStr, layout := layoutStr,
        rows := [{ height := 598, cells := [c] }], columns := [] } =
      [{ path := c.path, focalPoint := c.focalPoint, zoom := c.zoom,
         cellWidthUI := 730, cellHeightUI := 598,
         widthMM := 352, heightMM := 105248/365,
         xMM := 2, yMM := 2062/365 }] := by
  simp only [pagePlacements, List.isEmpty_nil, if_true, rowsWalk, rowCellsWalk,
    hw, Option.getD_some, trailGutter, List.isEmpty_nil, List.append_nil]
  norm_num [SCALE_FACTOR, PRINT_AREA_WIDTH, PRINT_PAGE_WIDTH, PRINT_MARGIN,
    PRINT_PAGE_HEIGHT, UI_PAGE_WIDTH]

/-- Witness for the amended C2 at the concrete cell of the counterexample. -/
theorem C2_amended_single_full_cell_rect_witness :
    C2cell.width = some 730 ∧
    pagePlacements
      { id := "interior-1", layout := "1",
        rows := [{ height := 598, cells := [C2cell] }], columns := [] } =
      [{ path := C2cell.path, focalPoint := C2cell.focalPoint, zoom := C2cell.zoom,
         cellWidthUI := 730, cellHeightUI := 598,
         widthMM := 352, heightMM := 105248/365,
         xMM := 2, yMM := 2062/365 }] :=
  ⟨rfl, C2_amended_single_full_cell_rect C2cell rfl "interior-1" "1"⟩

/-- A page with both rows and columns populated, for claim C3. -/
def C3page : Page :=
  { id := "dual", layout := "2-1",
    rows := [{ height := 598, cells := [{ width := some 730, path := some "a.jpg" }] }],
    columns := [{ width := 365, cells := [{ height := some 598, path := some "b.jpg" }] }] }

/-- A disk on which only the column cell image b.jpg exists, for claim C3. -/
def C3store : ImageStore := fun p =>
  if p = "b.jpg" then some (1460, 1196) else none

/-- Counterexample to claim C3: on a page where rows and columns are both
non-empty, the layout walk emits the column-based walk commands (here one
command for b.jpg), not the row-based ones (here none, since a.jpg does not
exist on this disk). -/
theorem C3_counterexample_columns_win_over_rows :
    pageDrawCommands C3store C3page = columnWalkDrawCommands C3store C3page ∧
    ¬ pageDrawCommands C3store C3page = rowWalkDrawCommands C3store C3page := by
  constructor
  · simp [pageDrawCommands, pagePlacements, columnWalkDrawCommands, C3page]
  · simp [pageDrawCommands, pagePlacements, columnWalkDrawCommands,
      rowWalkDrawCommands, C3page, C3store, columnsWalk, columnCellsWalk,
      rowsWalk, rowCellsWalk, render_cell, trailGutter]

/-- Claim C3 amended: whenever the columns collection is non-empty the page
emits the column-based walk commands, and the rows collection is ignored:
replacing it by any other rows collection leaves the output unchanged. -/
theorem C3_amended_columns_preferred (store : ImageStore) (page : Page)
    (rows2 : List Row) (h : page.columns ≠ []) :
    pageDrawCommands store page = columnWalkDrawCommands store page ∧
    pageDrawCommands store { page with rows := rows2 } =
      pageDrawCommands store page := by
  have hne : page.columns.isEmpty = false := by
    cases hc : page.columns with
    | nil => exact absurd hc h
    | cons a l => rfl
  constructor
  · simp [pageDrawCommands, pagePlacements, columnWalkDrawCommands, hne]
  · simp [pageDrawCommands, pagePlacements, hne]

/-- Witness for the amended C3 at the dual-populated page, replacing its
rows by the empty collection. -/
theorem C3_amended_columns_preferred_witness :
    C3page.columns ≠ [] ∧
    (pageDrawCommands C3store C3page = columnWalkDrawCommands C3store C3page ∧
      pageDrawCommands C3store { C3page with rows := [] } =
        pageDrawCommands C3store C3page) :=
  ⟨by decide, C3_amended_columns_preferred C3store C3page [] (by decide)⟩

/-- Claim C10: an album with at most two pages has no interior pages, and
generate_pdf takes the early normal return that prints an error before any
canvas is created: no PDF is produced and no abnormal-exit path is taken. -/
theorem C10_small_album_returns_normally_before_canvas
    (store : ImageStore) (album : Album) (h : album.pages.length ≤ 2) :
    generate_pdf store album = PdfOutcome.noInterior := by
  unfold generate_pdf interiorPages
  have h2 : ¬ 2 < album.pages.length := not_lt.mpr h
  simp [h2]

/-- A two-page album (both pages reserved for the cover), for claim C10. -/
def C10album : Album := { pages := [{ id := "cover-front" }, { id := "cover-back" }] }

/-- Witness for C10 at a concrete two-page album and an empty disk. -/
theorem C10_small_album_returns_normally_before_canvas_witness :
    C10album.pages.length ≤ 2 ∧
      generate_pdf (fun _ => none) C10album = PdfOutcome.noInterior :=
  ⟨by decide,
    C10_small_album_returns_normally_before_canvas (fun _ => none) C10album (by decide)⟩

/-- Claim C7: when the first (front-cover source) or last (back-cover
source) page of the album holds a number of cells different from one,
generate_cover is fatal before the canvas is created: the run terminates
with a non-zero exit and no cover PDF is written. -/
theorem C7_bad_cover_cell_count_is_fatal (album : Album) (front back : Page)
    (hf : album.pages.head? = some front) (hb : album.pages.getLast? = some back)
    (h : count_cells_in_page front ≠ 1 ∨ count_cells_in_page back ≠ 1) :
    cover_setup album = CoverSetup.fatal := by
  have hafter : ∀ s : ℕ, coverSetupAfterSpine album s = CoverSetup.fatal := by
    intro s
    unfold coverSetupAfterSpine
    rw [hf, hb]
    rcases h with h | h
    · simp [h]
    · by_cases h1 : count_cells_in_page front = 1
      · simp [h1, h]
      · simp [h1]
  unfold cover_setup
  cases get_spine_width (calculate_paper_pages (album.pages.length : ℤ)) with
  | ok s => exact hafter s
  | warned s => exact hafter s
  | error => rfl

/-- A front-cover source page with two image cells, for the C7 witness. -/
def C7frontPage : Page :=
  { id := "front", layout := "2",
    rows :=
      [{ height := 598,
         cells :=
           [{ width := some 365, path := some "x.jpg" },
            { width := some 365, path := some "y.jpg" }] }] }

/-- A single-cell page, for the C7 witness. -/
def C7backPage : Page :=
  { id := "back", layout := "1",
    rows := [{ height := 598, cells := [{ path := some "w.jpg" }] }] }

/-- A three-page album whose front cover page has two cells. -/
def C7album : Album :=
  { pages :=
      [C7frontPage,
       { id := "mid", layout := "1",
         rows := [{ height := 598, cells := [{ path := some "z.jpg" }] }] },
       C7backPage] }

/-- Witness for C7 at the album whose front-cover page has two cells. -/
theorem C7_bad_cover_cell_count_is_fatal_witness :
    (C7album.pages.head? = some C7frontPage ∧
      C7album.pages.getLast? = some C7backPage ∧
      (count_cells_in_page C7frontPage ≠ 1 ∨ count_cells_in_page C7backPage ≠ 1)) ∧
    cover_setup C7album = CoverSetup.fatal :=
  ⟨⟨rfl, rfl, Or.inl (by decide)⟩,
    C7_bad_cover_cell_count_is_fatal C7album C7frontPage C7backPage rfl rfl
      (Or.inl (by decide))⟩

/-! ## Claim C9: implicit per-cell dimension defaults -/

/-- Writing the row-walk default (generate_pdf.py line 423) into the cell
explicitly. -/
def normalizeRowCell (c : Cell) : Cell :=
  { c with width := some (c.width.getD UI_PAGE_WIDTH) }

/-- Writing the column-walk default (generate_pdf.py line 376) into the cell
explicitly. -/
def normalizeColumnCell (c : Cell) : Cell :=
  { c with height := some (c.height.getD UI_PAGE_HEIGHT) }

/-- Replacing every absent declared width of a row cell by an explicit 730
and every absent declared height of a column cell by an explicit 598. -/
def applyLayoutDefaults (page : Page) : Page :=
  { page with
    rows := page.rows.map (fun r => { r with cells := r.cells.map normalizeRowCell }),
    columns := page.columns.map
      (fun col => { col with cells := col.cells.map normalizeColumnCell }) }

lemma trailGutter_map {α β : Type} (f : α → β) (l : List α) :
    trailGutter (l.map f) = trailGutter l := by
  cases l <;> rfl

lemma isEmpty_map {α β : Type} (f : α → β) (l : List α) :
    (l.map f).isEmpty = l.isEmpty := by
  cases l <;> rfl

lemma rowCellsWalk_normalize (rowHeightUI : ℚ) (cells : List Cell) (x y : ℚ) :
    rowCellsWalk rowHeightUI (cells.map normalizeRowCell) x y =
      rowCellsWalk rowHeightUI cells x y := by
  induction cells generalizing x with
  | nil => rfl
  | cons c rest ih =>
    simp only [List.map_cons, rowCellsWalk, normalizeRowCell, Option.getD_some,
      trailGutter_map, ih]

lemma columnCellsWalk_normalize (colWidthUI : ℚ) (cells : List Cell) (x y : ℚ) :
    columnCellsWalk colWidthUI (cells.map normalizeColumnCell) x y =
      columnCellsWalk colWidthUI cells x y := by
  induction cells generalizing y with
  | nil => rfl
  | cons c rest ih =>
    simp only [List.map_cons, columnCellsWalk, normalizeColumnCell, Option.getD_some,
      trailGutter_map, ih]

lemma rowsWalk_normalize (rows : List Row) (y : ℚ) :
    rowsWalk (rows.map (fun r => { r with cells := r.cells.map normalizeRowCell })) y =
      rowsWalk rows y := by
  induction rows generalizing y with
  | nil => rfl
  | cons r rest ih =>
    simp only [List.map_cons, rowsWalk, rowCellsWalk_normalize, trailGutter_map, ih]

lemma columnsWalk_normalize (columns : List Column) (x : ℚ) :
    columnsWalk
        (columns.map (fun col => { col with cells := col.cells.map normalizeColumnCell }))
        x =
      columnsWalk columns x := by
  induction columns generalizing x with
  | nil => rfl
  | cons col rest ih =>
    simp only [List.map_cons, columnsWalk, columnCellsWalk_normalize, trailGutter_map, ih]

/-- Claim C9: the layout walk lays out a row cell that omits its declared
width exactly as if it declared the full UI page width 730, and a column
cell that omits its declared height exactly as if it declared the full UI
page height 598: making all the per-cell defaults explicit leaves every
emitted placement unchanged. -/
theorem C9_absent_cell_dimensions_default_to_full_page (page : Page) :
    pagePlacements (applyLayoutDefaults page) = pagePlacements page := by
  unfold pagePlacements applyLayoutDefaults
  simp only [isEmpty_map]
  split
  · exact rowsWalk_normalize page.rows 0
  · exact columnsWalk_normalize page.columns 0

/-! ## Claim C8: a missing image file skips exactly that cell -/

/-- Removing one image file from the disk. -/
def removeImg (p : String) (store : ImageStore) : ImageStore :=
  fun q => if q = p then none else store q

/-- The per-interior-page draw command lists of the whole document. -/
def documentDrawCommands (store : ImageStore) (album : Album) : List (List DrawCmd) :=
  (interiorPages album).map (pageDrawCommands store)

lemma render_cell_removeImg_fst (store : ImageStore) (p : String) (pl : Placement) :
    (render_cell (removeImg p store) pl).1 =
      match (render_cell store pl).1 with
      | some cmd => if cmd.path = p then none else some cmd
      | none => none := by
  cases hpath : pl.path with
  | none => simp [render_cell, hpath]
  | some q =>
    by_cases hq : q = ""
    · simp [render_cell, hpath, hq]
    · by_cases hqp : q = p
      · subst hqp
        cases hs : store q with
        | none => simp [render_cell, hpath, hq, removeImg, hs]
        | some dims =>
          obtain ⟨iw, ihh⟩ := dims
          simp [render_cell, hpath, hq, removeImg, hs]
      · cases hs : store q with
        | none => simp [render_cell, hpath, hq, removeImg, hs, hqp]
        | some dims =>
          obtain ⟨iw, ihh⟩ := dims
          simp [render_cell, hpath, hq, removeImg, hs, hqp]

lemma filterMap_render_removeImg (store : ImageStore) (p : String)
    (pls : List Placement) :
    pls.filterMap (fun pl => (render_cell (removeImg p store) pl).1) =
      (pls.filterMap (fun pl => (render_cell store pl).1)).filter
        (fun cmd => decide (cmd.path ≠ p)) := by
  induction pls with
  | nil => rfl
  | cons pl rest ih =>
    rw [List.filterMap_cons, List.filterMap_cons, render_cell_removeImg_fst]
    cases h : (render_cell store pl).1 with
    | none => simpa using ih
    | some cmd =>
      by_cases hc : cmd.path = p
      · simp [hc, ih]
      · simp [hc, ih]

/-- Claim C8: a cell whose path does not resolve to an existing image file
yields a warning and no draw command, and only that cell is skipped: deleting
an image from the disk removes exactly the draw commands sourced from it,
leaving every other draw command of every page of the document unchanged. -/
theorem C8_missing_image_skips_only_that_cell :
    (∀ (store : ImageStore) (pl : Placement) (p : String),
      pl.path = some p → p ≠ "" → store p = none →
      render_cell store pl = (none, [Warning.imageNotFound p])) ∧
    (∀ (store : ImageStore) (p : String) (page : Page),
      pageDrawCommands (removeImg p store) page =
        (pageDrawCommands store page).filter (fun cmd => decide (cmd.path ≠ p))) ∧
    (∀ (store : ImageStore) (p : String) (album : Album),
      documentDrawCommands (removeImg p store) album =
        (documentDrawCommands store album).map
          (fun cmds => cmds.filter (fun cmd => decide (cmd.path ≠ p)))) := by
  have hpage : ∀ (store : ImageStore) (p : String) (page : Page),
      pageDrawCommands (removeImg p store) page =
        (pageDrawCommands store page).filter (fun cmd => decide (cmd.path ≠ p)) := by
    intro store p page
    exact filterMap_render_removeImg store p (pagePlacements page)
  refine ⟨?_, hpage, ?_⟩
  · intro store pl p hp hne hs
    simp [render_cell, hp, hne, hs]
  · intro store p album
    unfold documentDrawCommands
    rw [List.map_map]
    exact List.map_congr_left (fun pg _ => hpage store p pg)

/-- The placement of a cell referencing a file that is absent from the
disk, for the C8 witness. -/
def C8placement : Placement :=
  { path := some "missing.jpg", focalPoint := none, zoom := none,
    cellWidthUI := 730, cellHeightUI := 598, widthMM := 352, heightMM := 292,
    xMM := 2, yMM := 2 }

/-- An empty disk, for the C8 witness. -/
def C8store : ImageStore := fun _ => none

/-- An interior page holding one cell whose image is missing, for the C8
witness. -/
def C8page : Page :=
  { id := "interior-8", layout := "1",
    rows := [{ height := 598, cells := [{ path := some "missing.jpg" }] }] }

/-- Witness for C8: a concrete missing-image cell yields exactly the
image-not-found warning and no draw command, and deleting that image from a
disk filters exactly its commands out of a concrete page. -/
theorem C8_missing_image_skips_only_that_cell_witness :
    (C8placement.path = some "missing.jpg" ∧ "missing.jpg" ≠ "" ∧
      C8store "missing.jpg" = none) ∧
    render_cell C8store C8placement = (none, [Warning.imageNotFound "missing.jpg"]) ∧
    pageDrawCommands (removeImg "missing.jpg" C8store) C8page =
      (pageDrawCommands C8store C8page).filter
        (fun cmd => decide (cmd.path ≠ "missing.jpg")) :=
  ⟨⟨rfl, by decide, rfl⟩,
    C8_missing_image_skips_only_that_cell.1 C8store C8placement "missing.jpg"
      rfl (by decide) rfl,
    C8_missing_image_skips_only_that_cell.2.1 C8store "missing.jpg" C8page⟩

end Photobook
